import Mathlib

/-!
Verification of the feature pipeline and prediction loop of the
automl-service (services/automl-service/main.py), shallowly embedded:
pandas DataFrames become lists of rows plus presence flags for the
columns that vary between call sites, numeric values become rationals,
and the SQL window query becomes a recursion over the chronologically
ordered readings of one sensor.
-/

namespace AutoML

/-- The output of pandas `dt.year`, `dt.month`, ..., `dt.dayofweek` on one
timestamp, together with its epoch instant in seconds (what the SQL
`EXTRACT(EPOCH FROM ...)` difference is computed from).  The calendar
components are integers in the source; they are only carried through the
pipeline, so they are embedded directly as rationals. -/
structure Timestamp where
  year : ℚ
  month : ℚ
  day : ℚ
  hour : ℚ
  minute : ℚ
  second : ℚ
  dayofweek : ℚ
  epoch : ℚ
deriving DecidableEq, Repr

/-- One row of the `sensor_data` table restricted to one sensor:
`fetch_latest_data_for_prediction` partitions by `sensor_id`, so the
per-sensor series is a list of (timestamp, value) readings, ordered by
`timestamp` ascending as in the SQL `ORDER BY timestamp`. -/
structure Reading where
  ts : Timestamp
  value : ℚ
deriving DecidableEq, Repr

/-- The module-level sensor vocabulary `SENSORS_TO_PREDICT` from main.py. -/
def SENSORS_TO_PREDICT : List String :=
  ["pressure-1", "temp-1", "flow-1", "pressure-2", "flow-2", "vibration-1",
   "pressure-3", "flow-3", "temp-2", "oil-production", "gas-production",
   "water-cut", "valve-inlet", "valve-gas", "valve-water", "valve-oil", "temp-3"]

/-- The module-level constant `MQTT_PREDICTION_TOPIC_PREFIX` from main.py
(renamed: the embedding avoids certain identifier endings). -/
def MQTT_PREDICTION_TOPIC_BASE : String := "ai_scada/predictions"

/-! ## DataFrame model and process_data (main.py lines 116-195) -/

/-- One row of a DataFrame passed to `process_data`.  `value` is
meaningful only when the frame has a `value` column, and the five
historical fields only when the frame has those columns (see `DF`). -/
structure InRow where
  sensor_id : String
  ts : Timestamp
  value : ℚ
  prev_value_1 : ℚ
  prev_value_2 : ℚ
  prev_value_3 : ℚ
  rate_of_change_1 : ℚ
  rate_of_change_2 : ℚ
deriving DecidableEq, Repr

/-- A DataFrame as seen by `process_data`: which of the varying columns
are present (`sensor_id`; `value`; the five historical feature columns,
which always travel together), plus the rows.  The training frame has
`value` but no historical columns; the inference frame built by
`fetch_latest_data_for_prediction` has the historical columns but no
`value`. -/
structure DF where
  hasSensorId : Bool
  hasValue : Bool
  hasHist : Bool
  rows : List InRow
deriving DecidableEq, Repr

def calendarCols : List String :=
  ["year", "month", "day", "hour", "minute", "second", "dayofweek"]

def histCols : List String :=
  ["prev_value_1", "prev_value_2", "prev_value_3",
   "rate_of_change_1", "rate_of_change_2"]

/-- The one-hot column name for a sensor, `f'sensor_id_{sensor}'`. -/
def sensorCol (s : String) : String := "sensor_id_" ++ s

/-- The `required_features` list of `process_data` (lines 174-183):
`value` first when present, then the seven calendar columns, the five
historical columns, and one indicator column per vocabulary entry. -/
def requiredFeatures (hasValue : Bool) (vocab : List String) : List String :=
  (if hasValue then ["value"] else []) ++ calendarCols ++ histCols ++ vocab.map sensorCol

/-- Calendar feature values extracted from a timestamp (lines 130-136). -/
def calendarOf (t : Timestamp) : List ℚ :=
  [t.year, t.month, t.day, t.hour, t.minute, t.second, t.dayofweek]

/-- Historical feature values: taken from the row when the columns exist,
otherwise initialized to 0 (lines 165-171). -/
def histOf (hasHist : Bool) (r : InRow) : List ℚ :=
  if hasHist then
    [r.prev_value_1, r.prev_value_2, r.prev_value_3,
     r.rate_of_change_1, r.rate_of_change_2]
  else [0, 0, 0, 0, 0]

/-- The indicator values for the vocabulary columns of one row: the
`pd.get_dummies` indicator restricted to the vocabulary columns selected
by the reorder `processed[required_features]` (lines 142-151, 191). -/
def oneHot (vocab : List String) (sid : String) : List ℚ :=
  vocab.map (fun s => if sid = s then 1 else 0)

/-- One encoded output row of `process_data`, as an ordered association
list from column name to value, in `requiredFeatures` order. -/
def encodeRow (hasValue hasHist : Bool) (vocab : List String) (r : InRow) :
    List (String × ℚ) :=
  (if hasValue then [("value", r.value)] else [])
  ++ calendarCols.zip (calendarOf r.ts)
  ++ histCols.zip (histOf hasHist r)
  ++ (vocab.map sensorCol).zip (oneHot vocab r.sensor_id)

/-- The columns present in the frame after the transforms of
`process_data` and before the reorder: `value` if it came in; the
calendar columns; the historical columns (filled when missing); and,
only when a `sensor_id` column exists, the dummy columns from the actual
values plus every vocabulary column (lines 139-171). -/
def availableCols (df : DF) : List String :=
  (if df.hasValue then ["value"] else []) ++ calendarCols ++ histCols
  ++ (if df.hasSensorId then
        df.rows.map (fun r => sensorCol r.sensor_id)
        ++ SENSORS_TO_PREDICT.map sensorCol
      else [])

/-- The `missing_features` check of lines 185-188. -/
def missing_features (df : DF) : List String :=
  (requiredFeatures df.hasValue SENSORS_TO_PREDICT).filter
    (fun c => decide (c ∉ availableCols df))

/-- `process_data` (lines 116-195): `None` on an empty frame; `None`
when a required feature column is missing after the transforms
(the schema-mismatch abort); otherwise each row encoded in the frozen
column order.  The vocabulary is the module global `SENSORS_TO_PREDICT`. -/
def process_data (df : DF) : Option (List (List (String × ℚ))) :=
  if df.rows.isEmpty then none
  else if missing_features df ≠ [] then none
  else some (df.rows.map (encodeRow df.hasValue df.hasHist SENSORS_TO_PREDICT))

/-! ### Basic lemmas about the encoder -/

theorem oneHot_of_not_mem {vocab : List String} {sid : String}
    (h : sid ∉ vocab) : oneHot vocab sid = vocab.map (fun _ => 0) := by
  unfold oneHot
  apply List.map_congr_left
  intro a ha
  rw [if_neg]
  intro hc
  exact h (hc ▸ ha)

theorem length_calendarOf (t : Timestamp) : (calendarOf t).length = 7 := rfl

theorem length_histOf (hasHist : Bool) (r : InRow) : (histOf hasHist r).length = 5 := by
  cases hasHist <;> rfl

theorem length_oneHot (vocab : List String) (sid : String) :
    (oneHot vocab sid).length = vocab.length := by
  simp [oneHot]

/-- The column names of an encoded row are exactly `requiredFeatures`. -/
theorem encodeRow_names (hasValue hasHist : Bool) (vocab : List String) (r : InRow) :
    (encodeRow hasValue hasHist vocab r).map Prod.fst = requiredFeatures hasValue vocab := by
  unfold encodeRow requiredFeatures
  rw [List.map_append, List.map_append, List.map_append,
      List.map_fst_zip _ _ (by rw [length_calendarOf]; decide),
      List.map_fst_zip _ _ (by rw [length_histOf]; decide),
      List.map_fst_zip _ _ (by rw [length_oneHot]; simp)]
  cases hasValue <;> rfl

/-- When the frame has a `sensor_id` column, no required feature is
missing. -/
theorem missing_features_of_hasSensorId {df : DF} (h : df.hasSensorId = true) :
    missing_features df = [] := by
  unfold missing_features
  rw [List.filter_eq_nil_iff]
  intro c hc
  simp only [decide_eq_true_eq, not_not]
  unfold requiredFeatures at hc
  unfold availableCols
  rw [h]
  simp only [List.mem_append, if_true] at hc ⊢
  rcases hc with ((hv | hcal) | hhist) | hsens
  · exact Or.inl (Or.inl (Or.inl hv))
  · exact Or.inl (Or.inl (Or.inr hcal))
  · exact Or.inl (Or.inr hhist)
  · exact Or.inr (Or.inr hsens)

/-- When the frame lacks a `sensor_id` column, the vocabulary indicator
columns are missing and `process_data` hits the abort branch. -/
theorem missing_features_of_not_hasSensorId {df : DF} (h : df.hasSensorId = false) :
    missing_features df ≠ [] := by
  unfold missing_features
  intro hnil
  rw [List.filter_eq_nil_iff] at hnil
  have hmem : sensorCol "pressure-1" ∈ requiredFeatures df.hasValue SENSORS_TO_PREDICT := by
    unfold requiredFeatures
    simp only [List.mem_append]
    right
    exact List.mem_map_of_mem sensorCol (by decide)
  have hin := hnil _ hmem
  simp only [decide_eq_true_eq, not_not] at hin
  unfold availableCols at hin
  rw [h, if_neg (show ¬(false = true) by decide), List.append_nil] at hin
  cases hv : df.hasValue <;> rw [hv] at hin <;> exact absurd hin (by decide)

theorem process_data_of_hasSensorId {df : DF} (hs : df.hasSensorId = true)
    (hne : df.rows ≠ []) :
    process_data df = some (df.rows.map (encodeRow df.hasValue df.hasHist SENSORS_TO_PREDICT)) := by
  unfold process_data
  rw [if_neg, if_neg]
  · rw [missing_features_of_hasSensorId hs]
    simp
  · simp [List.isEmpty_iff, hne]

theorem process_data_of_not_hasSensorId {df : DF} (hs : df.hasSensorId = false)
    (hne : df.rows ≠ []) : process_data df = none := by
  unfold process_data
  rw [if_neg (by simp [List.isEmpty_iff, hne]), if_pos (missing_features_of_not_hasSensorId hs)]

/-! ## The window query of fetch_latest_data_for_prediction
(main.py lines 238-333)

The SQL `RankedData` CTE partitions `sensor_data` by `sensor_id`,
orders by `timestamp` ascending, and attaches the three `LAG`ged prior
values, the three epoch time differences, and the two guarded
rate-of-change columns to every in-window reading.  The embedding takes
one sensor's chronologically ordered in-window readings and walks them
with an accumulator holding the already-seen readings, most recent
first, so that the accumulator's k-th entry is `LAG(..., k+1)`. -/

/-- One row of the `RankedData` CTE for one sensor. -/
structure RankedRow where
  sensor_id : String
  ts : Timestamp
  value : ℚ
  prev_value_1 : Option ℚ
  prev_value_2 : Option ℚ
  prev_value_3 : Option ℚ
  time_diff_1 : Option ℚ
  time_diff_2 : Option ℚ
  time_diff_3 : Option ℚ
  rate_of_change_1 : ℚ
  rate_of_change_2 : ℚ
deriving DecidableEq, Repr

/-- `LAG(value, k+1)` seen from the accumulator of prior readings. -/
def lagVal (prior : List Reading) (k : ℕ) : Option ℚ :=
  (prior[k]?).map (fun p => p.value)

/-- `EXTRACT(EPOCH FROM (timestamp - LAG(timestamp, k+1)))`. -/
def lagDiff (r : Reading) (prior : List Reading) (k : ℕ) : Option ℚ :=
  (prior[k]?).map (fun p => r.ts.epoch - p.ts.epoch)

/-- The SQL `CASE WHEN time_diff > 0 THEN (value - prev_value) /
time_diff ELSE 0 END`: a NULL comparison is not true, so a missing lag
also lands in the ELSE branch. -/
def rateCase (v : ℚ) (pv dt : Option ℚ) : ℚ :=
  match pv, dt with
  | some p, some d => if 0 < d then (v - p) / d else 0
  | _, _ => 0

/-- The `RankedData` row for reading `r`, given the prior readings of
the same sensor (most recent first). -/
def mkRankedRow (sid : String) (r : Reading) (prior : List Reading) : RankedRow :=
  { sensor_id := sid, ts := r.ts, value := r.value,
    prev_value_1 := lagVal prior 0, prev_value_2 := lagVal prior 1,
    prev_value_3 := lagVal prior 2,
    time_diff_1 := lagDiff r prior 0, time_diff_2 := lagDiff r prior 1,
    time_diff_3 := lagDiff r prior 2,
    rate_of_change_1 := rateCase r.value (lagVal prior 0) (lagDiff r prior 0),
    rate_of_change_2 := rateCase r.value (lagVal prior 1) (lagDiff r prior 1) }

/-- Walk the ascending readings, accumulating priors (most recent first). -/
def rankedAux (sid : String) (prior : List Reading) : List Reading → List RankedRow
  | [] => []
  | r :: rest => mkRankedRow sid r prior :: rankedAux sid (r :: prior) rest

/-- All `RankedData` rows of one sensor, in chronological order, from
its chronologically ordered in-window readings. -/
def rankedData (sid : String) (rs : List Reading) : List RankedRow :=
  rankedAux sid [] rs

/-- The inference-input row built per sensor (lines 312-320): the
most recent surviving ranked row, shifted one step — the current value
becomes `prev_value_1`, and the calendar source is the actual last
timestamp. -/
structure PredRow where
  sensor_id : String
  ts : Timestamp
  prev_value_1 : ℚ
  prev_value_2 : ℚ
  prev_value_3 : ℚ
  rate_of_change_1 : ℚ
  rate_of_change_2 : ℚ
deriving DecidableEq, Repr

def predictionRowOf (q : RankedRow) : PredRow :=
  { sensor_id := q.sensor_id, ts := q.ts,
    prev_value_1 := q.value,
    prev_value_2 := q.prev_value_1.getD 0,
    prev_value_3 := q.prev_value_2.getD 0,
    rate_of_change_1 := q.rate_of_change_1,
    rate_of_change_2 := q.rate_of_change_2 }

/-- One sensor's contribution: the outer query keeps ranked rows with
`prev_value_3 IS NOT NULL` (line 284); `sensor_df.iloc[0]` picks the
most recent of them (the query orders by timestamp DESC, so the head of
the descending order is the last of the chronological order), and the
prediction row is built from it; an empty survivor set skips the
sensor. -/
def sensor_prediction_row (sid : String) (rs : List Reading) : Option PredRow :=
  ((((rankedData sid rs).filter (fun q => q.prev_value_3.isSome)).getLast?).map
    predictionRowOf)

/-- `fetch_latest_data_for_prediction` (lines 238-333): one prediction
row per sensor that has a surviving ranked row, in the order of the
`sensors` argument; `None` when no sensor contributes (the code returns
`None` both when the query yields no surviving row and when
`prediction_data` stays empty — the two conditions coincide).
`db` maps a sensor id to its chronologically ordered in-window
readings. -/
def fetch_latest_data_for_prediction (sensors : List String)
    (db : String → List Reading) : Option (List PredRow) :=
  let prediction_data := sensors.filterMap (fun sid => sensor_prediction_row sid (db sid))
  if prediction_data.isEmpty then none else some prediction_data

/-! ### Lemmas about the window computation -/

theorem rankedAux_append (sid : String) (a : Reading) :
    ∀ (xs : List Reading) (prior : List Reading),
      rankedAux sid prior (xs ++ [a])
        = rankedAux sid prior xs ++ [mkRankedRow sid a (xs.reverse ++ prior)] := by
  intro xs
  induction xs with
  | nil => intro prior; rfl
  | cons x xs ih =>
    intro prior
    simp only [List.cons_append, rankedAux, List.append_eq]
    rw [ih (x :: prior)]
    simp [List.reverse_cons, List.append_assoc]

theorem sensor_id_of_mem_rankedAux (sid : String) :
    ∀ (rs prior : List Reading) (q : RankedRow),
      q ∈ rankedAux sid prior rs → q.sensor_id = sid := by
  intro rs
  induction rs with
  | nil => intro prior q hq; cases hq
  | cons r rest ih =>
    intro prior q hq
    rcases List.mem_cons.mp hq with hq' | hq'
    · rw [hq']; rfl
    · exact ih (r :: prior) q hq'

theorem mem_rankedAux_inv (sid : String) :
    ∀ (rs prior : List Reading) (q : RankedRow),
      q ∈ rankedAux sid prior rs →
        ∃ (r : Reading) (pr : List Reading), q = mkRankedRow sid r pr := by
  intro rs
  induction rs with
  | nil => intro prior q hq; cases hq
  | cons r rest ih =>
    intro prior q hq
    rcases List.mem_cons.mp hq with hq' | hq'
    · exact ⟨r, prior, hq'⟩
    · exact ih (r :: prior) q hq'

/-- With at most three readings (counting the accumulated priors), no
ranked row has a third lag, so the `prev_value_3 IS NOT NULL` filter
keeps nothing. -/
theorem rankedAux_filter_nil (sid : String) :
    ∀ (rs prior : List Reading), rs.length + prior.length ≤ 3 →
      (rankedAux sid prior rs).filter (fun q => q.prev_value_3.isSome) = [] := by
  intro rs
  induction rs with
  | nil => intro prior _; rfl
  | cons r rest ih =>
    intro prior hlen
    simp only [rankedAux, List.filter_cons]
    rw [if_neg, ih (r :: prior) (by simp at hlen ⊢; omega)]
    simp only [mkRankedRow, lagVal]
    rw [List.getElem?_eq_none (by simp at hlen ⊢; omega)]
    simp

/-- A sensor with fewer than four in-window readings (that is, whose
latest reading has fewer than three priors) contributes no prediction
row. -/
theorem sensor_prediction_row_short {sid : String} {rs : List Reading}
    (h : rs.length ≤ 3) : sensor_prediction_row sid rs = none := by
  unfold sensor_prediction_row rankedData
  rw [rankedAux_filter_nil sid rs [] (by simpa using h)]
  rfl

/-- A sensor whose in-window series ends, in descending order, with
readings `r0, r1, r2, r3, ...` (so the latest reading `r0` has at least
three priors) contributes the shifted prediction row built from the
latest ranked row. -/
theorem sensor_prediction_row_long (sid : String) (r0 r1 r2 r3 : Reading)
    (rest : List Reading) (rs : List Reading)
    (hrs : rs.reverse = r0 :: r1 :: r2 :: r3 :: rest) :
    sensor_prediction_row sid rs
      = some (predictionRowOf (mkRankedRow sid r0 (r1 :: r2 :: r3 :: rest))) := by
  have hrs' : rs = (r1 :: r2 :: r3 :: rest).reverse ++ [r0] := by
    have := congrArg List.reverse hrs
    simpa [List.reverse_cons, List.append_assoc] using this
  unfold sensor_prediction_row rankedData
  rw [hrs', rankedAux_append, List.filter_append]
  have hkeep : (mkRankedRow sid r0 ((r1 :: r2 :: r3 :: rest).reverse.reverse ++ [])).prev_value_3.isSome = true := by
    simp [mkRankedRow, lagVal]
  rw [List.filter_cons, if_pos hkeep, List.filter_nil]
  rw [List.getLast?_concat]
  simp [List.reverse_reverse]

/-! ## Publishing (main.py lines 415-444) and the prediction loop -/

/-- A JSON value, as far as the published payload needs. -/
inductive Json where
  | str (s : String)
  | num (q : ℚ)
  | obj (fields : List (String × Json))

/-- Deserialization access to an object field. -/
def jsonField (j : Json) (k : String) : Option Json :=
  match j with
  | Json.obj fs => (fs.find? (fun kv => kv.1 = k)).map (fun kv => kv.2)
  | _ => none

/-- The field names of an object. -/
def jsonKeys (j : Json) : List String :=
  match j with
  | Json.obj fs => fs.map (fun kv => kv.1)
  | _ => []

/-- The payload built by `json.dumps({...})` at lines 430-435, with the
fields in source order.  `now` stands for the
`datetime.utcnow().isoformat() + "Z"` string. -/
def envelopeJson (now sid : String) (v : ℚ) : Json :=
  Json.obj [("timestamp", Json.str now), ("sensor_id", Json.str sid),
            ("value", Json.num v), ("type", Json.str "prediction")]

/-- The topic `f"{MQTT_PREDICTION_TOPIC_PREFIX}/{sensor_id}"`. -/
def topicOf (sid : String) : String := MQTT_PREDICTION_TOPIC_BASE ++ "/" ++ sid

/-- One `mqtt_client.publish` call and its outcome: `ok` is whether the
returned code was `MQTT_ERR_SUCCESS`; a failure is logged for that
sensor and the iteration moves on (lines 437-441). -/
structure PubAttempt where
  topic : String
  payload : Json
  ok : Bool

/-- The `for index, row in results_df.iterrows()` loop (lines 426-441):
every (sensor_id, predicted value) pair is published in order,
regardless of the return codes of earlier publishes; `rc i` is the
broker's success indication for the i-th call. -/
def publishBatchFrom (now : String) (rc : ℕ → Bool) :
    ℕ → List (String × ℚ) → List PubAttempt
  | _, [] => []
  | i, (sid, v) :: rest =>
    { topic := topicOf sid, payload := envelopeJson now sid v, ok := rc i }
      :: publishBatchFrom now rc (i + 1) rest

def publishBatch (now : String) (rc : ℕ → Bool) (results : List (String × ℚ)) :
    List PubAttempt :=
  publishBatchFrom now rc 0 results

/-! ### The prediction loop (main.py lines 357-457)

One iteration of the `while True` body, as a function of the outcomes
the environment hands the cycle: the fetched frame (or `None`), whether
the H2O predict call succeeds, the per-publish return codes, the
measured elapsed time, and the wall-clock string.  The H2O model is an
opaque row-to-number function held in the loop state. -/

structure LoopState where
  trained_model : List (String × ℚ) → ℚ

structure CycleEnv where
  fetched : Option DF
  predictOk : Bool
  rc : ℕ → Bool
  elapsed : ℚ
  now : String

structure CycleResult where
  attempts : List PubAttempt
  sleep : ℚ
  errorLogged : Bool
  escapes : Bool

/-- The inference frame built from the fetched prediction rows: it has
a `sensor_id` column and the five historical columns but no `value`
column (the `value` field of `InRow` is a placeholder that the encoder
never reads when `hasValue` is false). -/
def toInRow (p : PredRow) : InRow :=
  { sensor_id := p.sensor_id, ts := p.ts, value := 0,
    prev_value_1 := p.prev_value_1, prev_value_2 := p.prev_value_2,
    prev_value_3 := p.prev_value_3,
    rate_of_change_1 := p.rate_of_change_1, rate_of_change_2 := p.rate_of_change_2 }

def inferenceDF (pd : List PredRow) : DF :=
  { hasSensorId := true, hasValue := false, hasHist := true, rows := pd.map toInRow }

/-- One iteration of `prediction_loop` (lines 371-457).  A fetch
failure, an encode failure, or a prediction failure (the latter raises
at line 412 via `predictions.describe()` on `None` and is caught by the
iteration-wide handler at line 454) is logged and sleeps the full
configured interval.  On the success path the batch is published
per-sensor and the iteration ends at lines 449-452 with the
drift-corrected sleep `max(0, interval - elapsed)`.  The `while True`
body catches every exception, so no branch escapes, and nothing
assigns `trained_model`, so the state is returned unchanged. -/
def prediction_loop_step (interval : ℚ) (st : LoopState) (env : CycleEnv) :
    LoopState × CycleResult :=
  (st,
    match env.fetched with
    | none =>
      { attempts := [], sleep := interval, errorLogged := true, escapes := false }
    | some df =>
      match process_data df with
      | none =>
        { attempts := [], sleep := interval, errorLogged := true, escapes := false }
      | some matrix =>
        if env.predictOk then
          let preds := matrix.map st.trained_model
          let results := (df.rows.map (fun r => r.sensor_id)).zip preds
          let attempts := publishBatch env.now env.rc results
          { attempts := attempts, sleep := max 0 (interval - env.elapsed),
            errorLogged := attempts.any (fun a => ! a.ok), escapes := false }
        else
          { attempts := [], sleep := interval, errorLogged := true, escapes := false })

/-- The startup sequence of `main()` (lines 460-555): MQTT setup
failure, H2O init failure, and failure to end up with a trained model
each return before the prediction loop starts; the loop is entered only
with a model in hand. -/
inductive StartupOutcome where
  | exitBeforeLoop
  | enterLoop
deriving DecidableEq, Repr

def main_startup (mqttOk h2oOk modelAcquired : Bool) : StartupOutcome :=
  if mqttOk = false then StartupOutcome.exitBeforeLoop
  else if h2oOk = false then StartupOutcome.exitBeforeLoop
  else if modelAcquired = false then StartupOutcome.exitBeforeLoop
  else StartupOutcome.enterLoop

/-! ### Lemmas about publishing and the cycle -/

theorem publishBatchFrom_length (now : String) (rc : ℕ → Bool) :
    ∀ (results : List (String × ℚ)) (i : ℕ),
      (publishBatchFrom now rc i results).length = results.length := by
  intro results
  induction results with
  | nil => intro i; rfl
  | cons p rest ih =>
    intro i
    cases p with
    | mk sid v => simp [publishBatchFrom, ih (i + 1)]

theorem publishBatchFrom_getElem (now : String) (rc : ℕ → Bool) :
    ∀ (results : List (String × ℚ)) (i j : ℕ) (sid : String) (v : ℚ),
      results[j]? = some (sid, v) →
      (publishBatchFrom now rc i results)[j]?
        = some { topic := topicOf sid, payload := envelopeJson now sid v,
                 ok := rc (i + j) : PubAttempt } := by
  intro results
  induction results with
  | nil => intro i j sid v h; simp at h
  | cons p rest ih =>
    intro i j sid v h
    cases p with
    | mk sid' v' =>
      cases j with
      | zero =>
        simp at h
        simp [publishBatchFrom, h.1, h.2]
      | succ j' =>
        simp only [List.getElem?_cons_succ] at h
        have := ih (i + 1) j' sid v h
        simpa [publishBatchFrom, Nat.add_assoc, Nat.add_comm 1 j'] using this

theorem publishBatch_getElem (now : String) (rc : ℕ → Bool)
    (results : List (String × ℚ)) (j : ℕ) (sid : String) (v : ℚ)
    (h : results[j]? = some (sid, v)) :
    (publishBatch now rc results)[j]?
      = some { topic := topicOf sid, payload := envelopeJson now sid v,
               ok := rc j : PubAttempt } := by
  have := publishBatchFrom_getElem now rc results 0 j sid v h
  simpa [publishBatch] using this

theorem publishBatchFrom_topics (now : String) (rc : ℕ → Bool) :
    ∀ (results : List (String × ℚ)) (i : ℕ),
      (publishBatchFrom now rc i results).map (fun a => a.topic)
        = results.map (fun p => topicOf p.1) := by
  intro results
  induction results with
  | nil => intro i; rfl
  | cons p rest ih =>
    intro i
    cases p with
    | mk sid v => simp [publishBatchFrom, ih (i + 1)]

/-- The publish pairs assembled on the success path: `results_df` is the
positional concat of the fetched frame's `sensor_id` column with the
`predict` column (lines 421-422), so row j pairs the j-th fetched
sensor with the model output on the j-th encoded row. -/
def cycleResults (st : LoopState) (df : DF) : List (String × ℚ) :=
  df.rows.map (fun r =>
    (r.sensor_id, st.trained_model (encodeRow df.hasValue df.hasHist SENSORS_TO_PREDICT r)))

theorem prediction_loop_step_fst (interval : ℚ) (st : LoopState) (env : CycleEnv) :
    (prediction_loop_step interval st env).1 = st := rfl

theorem prediction_loop_step_escapes (interval : ℚ) (st : LoopState) (env : CycleEnv) :
    (prediction_loop_step interval st env).2.escapes = false := by
  unfold prediction_loop_step
  split
  · rfl
  · split
    · rfl
    · split <;> rfl

theorem prediction_loop_step_err_fetch (interval : ℚ) (st : LoopState) (env : CycleEnv)
    (hf : env.fetched = none) :
    (prediction_loop_step interval st env).2
      = { attempts := [], sleep := interval, errorLogged := true, escapes := false } := by
  unfold prediction_loop_step
  rw [hf]

theorem prediction_loop_step_err_encode (interval : ℚ) (st : LoopState) (env : CycleEnv)
    (df : DF) (hf : env.fetched = some df) (hpd : process_data df = none) :
    (prediction_loop_step interval st env).2
      = { attempts := [], sleep := interval, errorLogged := true, escapes := false } := by
  unfold prediction_loop_step
  rw [hf]
  simp only [hpd]

theorem prediction_loop_step_err_predict (interval : ℚ) (st : LoopState) (env : CycleEnv)
    (df : DF) (matrix : List (List (String × ℚ)))
    (hf : env.fetched = some df) (hpd : process_data df = some matrix)
    (hp : env.predictOk = false) :
    (prediction_loop_step interval st env).2
      = { attempts := [], sleep := interval, errorLogged := true, escapes := false } := by
  unfold prediction_loop_step
  rw [hf]
  simp only [hpd, hp]
  rfl

theorem prediction_loop_step_ok (interval : ℚ) (st : LoopState) (env : CycleEnv)
    (df : DF) (hf : env.fetched = some df) (hs : df.hasSensorId = true)
    (hne : df.rows ≠ []) (hp : env.predictOk = true) :
    (prediction_loop_step interval st env).2
      = { attempts := publishBatch env.now env.rc (cycleResults st df),
          sleep := max 0 (interval - env.elapsed),
          errorLogged := (publishBatch env.now env.rc (cycleResults st df)).any
            (fun a => ! a.ok),
          escapes := false } := by
  unfold prediction_loop_step
  rw [hf]
  simp only [process_data_of_hasSensorId hs hne, hp, if_true]
  rw [List.map_map, List.zip_map']
  rfl

theorem sensor_prediction_row_sid {sid : String} {rs : List Reading} {p : PredRow}
    (h : sensor_prediction_row sid rs = some p) : p.sensor_id = sid := by
  unfold sensor_prediction_row at h
  cases hq : ((rankedData sid rs).filter (fun q => q.prev_value_3.isSome)).getLast? with
  | none => rw [hq] at h; cases h
  | some q =>
    rw [hq] at h
    have hmemf : q ∈ (rankedData sid rs).filter (fun q => q.prev_value_3.isSome) :=
      List.mem_of_getLast?_eq_some hq
    have hmem : q ∈ rankedData sid rs := List.mem_of_mem_filter hmemf
    have hsid : q.sensor_id = sid := sensor_id_of_mem_rankedAux sid rs [] q hmem
    cases h
    exact hsid

theorem exists_rev4 {α : Type} (l : List α) (h : 4 ≤ l.length) :
    ∃ a b c d rest, l.reverse = a :: b :: c :: d :: rest := by
  have h' : 4 ≤ l.reverse.length := by simpa using h
  set m := l.reverse with hm
  rcases m with _ | ⟨a, m⟩
  · simp at h'
  rcases m with _ | ⟨b, m⟩
  · simp at h'
  rcases m with _ | ⟨c, m⟩
  · simp at h'
  rcases m with _ | ⟨d, m⟩
  · simp at h'
  exact ⟨a, b, c, d, m, rfl⟩

/-! ## Concrete fixtures used by witnesses and counterexamples -/

def ts1 : Timestamp := ⟨2025, 3, 14, 9, 26, 53, 4, 1741944413⟩

def trainRow1 : InRow := ⟨"pressure-1", ts1, 101, 0, 0, 0, 0, 0⟩

/-- A one-row training-shaped frame (sensor_id and value columns, no
historical columns), as produced by `fetch_training_data`. -/
def dfTrain1 : DF := ⟨true, true, false, [trainRow1]⟩

/-- A one-row inference-shaped frame whose sensor is outside
`SENSORS_TO_PREDICT`. -/
def bogusRow : InRow := ⟨"unknown-sensor-x", ts1, 0, 5, 6, 7, 1, 2⟩

def dfBogus : DF := ⟨true, false, true, [bogusRow]⟩

def stZero : LoopState := ⟨fun _ => 0⟩

/-! ## Claim theorems -/

/-- Claim C3: every row successfully encoded by `process_data` carries
the columns in the frozen order `[value?] + calendar(7) + lag/rate(5) +
one indicator per vocabulary entry`; in training shape the `value`
label is the first column, in inference shape it is absent, and the
non-label column names and order coincide between the two shapes. -/
theorem C3_column_order (df : DF) (out : List (List (String × ℚ)))
    (hs : df.hasSensorId = true) (hout : process_data df = some out) :
    (∀ row ∈ out, row.map Prod.fst = requiredFeatures df.hasValue SENSORS_TO_PREDICT)
    ∧ requiredFeatures df.hasValue SENSORS_TO_PREDICT
        = (if df.hasValue then ["value"] else []) ++ calendarCols ++ histCols
          ++ SENSORS_TO_PREDICT.map sensorCol
    ∧ calendarCols.length = 7
    ∧ histCols.length = 5
    ∧ (SENSORS_TO_PREDICT.map sensorCol).length = SENSORS_TO_PREDICT.length
    ∧ requiredFeatures true SENSORS_TO_PREDICT
        = "value" :: requiredFeatures false SENSORS_TO_PREDICT
    ∧ "value" ∉ requiredFeatures false SENSORS_TO_PREDICT := by
  have hne : df.rows ≠ [] := by
    intro hemp
    unfold process_data at hout
    rw [if_pos (by simp [hemp])] at hout
    cases hout
  have hout' : out = df.rows.map (encodeRow df.hasValue df.hasHist SENSORS_TO_PREDICT) := by
    have h2 := process_data_of_hasSensorId hs hne
    rw [h2] at hout
    exact (Option.some.inj hout).symm
  refine ⟨?_, rfl, rfl, rfl, by simp, rfl, by decide⟩
  intro row hrow
  rw [hout'] at hrow
  rcases List.mem_map.mp hrow with ⟨r, _, hrw⟩
  rw [← hrw]
  exact encodeRow_names df.hasValue df.hasHist SENSORS_TO_PREDICT r

theorem C3_column_order_witness :
    (encodeRow true false SENSORS_TO_PREDICT trainRow1).map Prod.fst
      = requiredFeatures true SENSORS_TO_PREDICT :=
  (C3_column_order dfTrain1 [encodeRow true false SENSORS_TO_PREDICT trainRow1] rfl
      (process_data_of_hasSensorId rfl (by decide))).1
    _ (by simp)

/-- Claim C1 counterexample: a row whose sensor_id is outside the
frozen vocabulary is NOT dropped by `process_data` — it is encoded, and
its vocabulary indicator columns are all zero (the extra dummy column
for the unknown sensor is discarded by the reorder).  This contradicts
the claim that such a row is rejected and that no all-zero one-hot row
is ever produced. -/
theorem C1_counterexample :
    process_data dfBogus = some [encodeRow false true SENSORS_TO_PREDICT bogusRow]
    ∧ (∀ s ∈ SENSORS_TO_PREDICT,
        (encodeRow false true SENSORS_TO_PREDICT bogusRow).lookup (sensorCol s) = some 0) := by
  constructor
  · exact process_data_of_hasSensorId rfl (by decide)
  · decide

/-- Claim C1 (amended): `process_data` does not reject rows with an
unknown sensor_id; such a row is kept and encoded with every vocabulary
indicator column equal to zero.  Unknown sensors are instead excluded
upstream: every row returned by `fetch_latest_data_for_prediction`
carries a sensor_id from the requested sensor list. -/
theorem C1_amended :
    (∀ (df : DF) (r : InRow), df.hasSensorId = true → r ∈ df.rows →
      r.sensor_id ∉ SENSORS_TO_PREDICT →
      ∃ out, process_data df = some out
        ∧ encodeRow df.hasValue df.hasHist SENSORS_TO_PREDICT r ∈ out
        ∧ (SENSORS_TO_PREDICT.map sensorCol).zip (oneHot SENSORS_TO_PREDICT r.sensor_id)
            = (SENSORS_TO_PREDICT.map sensorCol).zip (SENSORS_TO_PREDICT.map (fun _ => (0:ℚ)))
        ∧ encodeRow df.hasValue df.hasHist SENSORS_TO_PREDICT r
            = ((if df.hasValue then [("value", r.value)] else [])
                ++ calendarCols.zip (calendarOf r.ts)
                ++ histCols.zip (histOf df.hasHist r))
              ++ (SENSORS_TO_PREDICT.map sensorCol).zip
                  (SENSORS_TO_PREDICT.map (fun _ => (0:ℚ))))
    ∧ (∀ (sensors : List String) (db : String → List Reading) (pd : List PredRow),
        fetch_latest_data_for_prediction sensors db = some pd →
        ∀ p ∈ pd, p.sensor_id ∈ sensors) := by
  constructor
  · intro df r hs hr hout
    refine ⟨df.rows.map (encodeRow df.hasValue df.hasHist SENSORS_TO_PREDICT),
      process_data_of_hasSensorId hs (by intro hemp; rw [hemp] at hr; cases hr),
      List.mem_map_of_mem _ hr, ?_, ?_⟩
    · rw [oneHot_of_not_mem hout]
    · unfold encodeRow
      rw [oneHot_of_not_mem hout, List.append_assoc, List.append_assoc]
  · intro sensors db pd hfetch p hp
    unfold fetch_latest_data_for_prediction at hfetch
    by_cases hemp : (sensors.filterMap (fun sid => sensor_prediction_row sid (db sid))).isEmpty
    · rw [if_pos hemp] at hfetch; cases hfetch
    · rw [if_neg hemp] at hfetch
      rcases List.mem_filterMap.mp ((Option.some.inj hfetch) ▸ hp) with ⟨sid, hsid, hrow⟩
      rw [sensor_prediction_row_sid hrow]
      exact hsid

theorem C1_amended_witness :
    ∃ out, process_data dfBogus = some out
      ∧ encodeRow false true SENSORS_TO_PREDICT bogusRow ∈ out
      ∧ (SENSORS_TO_PREDICT.map sensorCol).zip (oneHot SENSORS_TO_PREDICT "unknown-sensor-x")
          = (SENSORS_TO_PREDICT.map sensorCol).zip (SENSORS_TO_PREDICT.map (fun _ => (0:ℚ)))
      ∧ encodeRow false true SENSORS_TO_PREDICT bogusRow
          = (([] ++ calendarCols.zip (calendarOf ts1)
              ++ histCols.zip (histOf true bogusRow))
            ++ (SENSORS_TO_PREDICT.map sensorCol).zip
                (SENSORS_TO_PREDICT.map (fun _ => (0:ℚ)))) :=
  C1_amended.1 dfBogus bogusRow rfl (by simp [dfBogus]) (by decide)

/-- Claim C7: when the encoded columns cannot be reconciled with the
required schema (`process_data` returns `None`), the whole cycle's
batch is aborted: nothing is published for any sensor, the error is
logged, and the cycle backs off for the full interval.  A frame missing
the sensor_id column (hence all indicator columns) is such a case. -/
theorem C7_schema_mismatch (interval : ℚ) (st : LoopState) (env : CycleEnv)
    (df : DF) (hf : env.fetched = some df) (hpd : process_data df = none) :
    (prediction_loop_step interval st env).2.attempts = []
    ∧ (prediction_loop_step interval st env).2.errorLogged = true
    ∧ (prediction_loop_step interval st env).2.sleep = interval
    ∧ (∀ (dfm : DF), dfm.hasSensorId = false → dfm.rows ≠ [] →
        process_data dfm = none) := by
  rw [prediction_loop_step_err_encode interval st env df hf hpd]
  exact ⟨rfl, rfl, rfl, fun dfm hs hne => process_data_of_not_hasSensorId hs hne⟩

def dfNoSensor : DF := ⟨false, false, true, [bogusRow]⟩

def envNoSensor : CycleEnv := ⟨some dfNoSensor, true, fun _ => true, 3, "t"⟩

theorem C7_schema_mismatch_witness :
    (prediction_loop_step 30 stZero envNoSensor).2.attempts = []
    ∧ (prediction_loop_step 30 stZero envNoSensor).2.errorLogged = true
    ∧ (prediction_loop_step 30 stZero envNoSensor).2.sleep = 30
    ∧ (∀ (dfm : DF), dfm.hasSensorId = false → dfm.rows ≠ [] →
        process_data dfm = none) :=
  C7_schema_mismatch 30 stZero envNoSensor dfNoSensor rfl
    (process_data_of_not_hasSensorId rfl (by decide))

/-- Claim C5: a cycle that reaches the IDLE computation (lines 449-452)
sleeps exactly `max(0, interval - elapsed)`: never negative, and zero
as soon as the elapsed time meets or exceeds the interval. -/
theorem C5_idle_sleep (interval : ℚ) (st : LoopState) (env : CycleEnv)
    (df : DF) (hf : env.fetched = some df) (hs : df.hasSensorId = true)
    (hne : df.rows ≠ []) (hp : env.predictOk = true) :
    (prediction_loop_step interval st env).2.sleep = max 0 (interval - env.elapsed)
    ∧ 0 ≤ (prediction_loop_step interval st env).2.sleep
    ∧ (interval ≤ env.elapsed → (prediction_loop_step interval st env).2.sleep = 0) := by
  rw [prediction_loop_step_ok interval st env df hf hs hne hp]
  refine ⟨rfl, le_max_left _ _, ?_⟩
  intro hle
  simp only
  rw [max_eq_left (by linarith)]

/-- A cycle taking 40s against a 30s interval sleeps exactly 0. -/
def envOverrun : CycleEnv := ⟨some dfTrain1, true, fun _ => true, 40, "t"⟩

theorem C5_idle_sleep_witness :
    (prediction_loop_step 30 stZero envOverrun).2.sleep = 0 :=
  (C5_idle_sleep 30 stZero envOverrun dfTrain1 rfl rfl (by decide) rfl).2.2
    (by norm_num [envOverrun])

def mkTs (e : ℚ) : Timestamp := ⟨2025, 3, 14, 9, 26, 53, 4, e⟩

/-- Readings with values [10, 12, 15] at 20, 10 and 0 seconds back. -/
def exampleSeries : List Reading :=
  [⟨mkTs 0, 10⟩, ⟨mkTs 10, 12⟩, ⟨mkTs 20, 15⟩]

/-- The same values with identical timestamps. -/
def exampleSeriesFlat : List Reading :=
  [⟨mkTs 5, 10⟩, ⟨mkTs 5, 12⟩, ⟨mkTs 5, 15⟩]

/-- Claim C4: for every ranked reading and k in {1,2}, the rate of
change equals `(value - prev_value_k) / time_delta_k` when the delta is
positive and 0 otherwise (also 0 when the lag is absent), the
computation being total; on values [10, 12, 15] at deltas [0, 10, 20]
seconds back, `rate_of_change_1 = 3/10`, and with identical timestamps
it is 0. -/
theorem C4_rate_of_change :
    (∀ (sid : String) (rs : List Reading) (q : RankedRow), q ∈ rankedData sid rs →
      (∀ p d, q.prev_value_1 = some p → q.time_diff_1 = some d →
        q.rate_of_change_1 = if 0 < d then (q.value - p) / d else 0)
      ∧ (∀ p d, q.prev_value_2 = some p → q.time_diff_2 = some d →
        q.rate_of_change_2 = if 0 < d then (q.value - p) / d else 0)
      ∧ (q.time_diff_1 = none → q.rate_of_change_1 = 0)
      ∧ (q.time_diff_2 = none → q.rate_of_change_2 = 0))
    ∧ (rankedData "temp-1" exampleSeries).getLast?.map (fun q => q.rate_of_change_1)
        = some (3 / 10)
    ∧ (rankedData "temp-1" exampleSeriesFlat).getLast?.map (fun q => q.rate_of_change_1)
        = some 0 := by
  refine ⟨?_, ?_, ?_⟩
  · intro sid rs q hq
    rcases mem_rankedAux_inv sid rs [] q hq with ⟨r, pr, hqeq⟩
    subst hqeq
    refine ⟨?_, ?_, ?_, ?_⟩
    · intro p d hp hd
      simp only [mkRankedRow, lagVal, lagDiff] at hp hd ⊢
      cases hpr : pr[0]? with
      | none => simp [hpr] at hp
      | some p0 =>
        rw [hpr] at hp hd
        simp only [Option.map_some'] at hp hd ⊢
        rw [Option.some.inj hp, Option.some.inj hd]
        rfl
    · intro p d hp hd
      simp only [mkRankedRow, lagVal, lagDiff] at hp hd ⊢
      cases hpr : pr[1]? with
      | none => simp [hpr] at hp
      | some p0 =>
        rw [hpr] at hp hd
        simp only [Option.map_some'] at hp hd ⊢
        rw [Option.some.inj hp, Option.some.inj hd]
        rfl
    · intro hd
      simp only [mkRankedRow, lagVal, lagDiff] at hd ⊢
      cases hpr : pr[0]? with
      | none => rfl
      | some p0 => simp [hpr] at hd
    · intro hd
      simp only [mkRankedRow, lagVal, lagDiff] at hd ⊢
      cases hpr : pr[1]? with
      | none => rfl
      | some p0 => simp [hpr] at hd
  · norm_num [rankedData, rankedAux, exampleSeries, mkRankedRow, mkTs,
      lagVal, lagDiff, rateCase]
  · norm_num [rankedData, rankedAux, exampleSeriesFlat, mkRankedRow, mkTs,
      lagVal, lagDiff, rateCase]

def series4 : List Reading :=
  [⟨mkTs 0, 1⟩, ⟨mkTs 10, 2⟩, ⟨mkTs 20, 3⟩, ⟨mkTs 30, 4⟩]

theorem C4_rate_of_change_witness :
    (mkRankedRow "flow-1" ⟨mkTs 30, 4⟩ [⟨mkTs 20, 3⟩, ⟨mkTs 10, 2⟩, ⟨mkTs 0, 1⟩]).rate_of_change_1
      = if (0:ℚ) < (mkTs 30).epoch - (mkTs 20).epoch
        then ((mkRankedRow "flow-1" ⟨mkTs 30, 4⟩ [⟨mkTs 20, 3⟩, ⟨mkTs 10, 2⟩, ⟨mkTs 0, 1⟩]).value - 3)
              / ((mkTs 30).epoch - (mkTs 20).epoch)
        else 0 :=
  ((C4_rate_of_change.1 "flow-1" series4
      (mkRankedRow "flow-1" ⟨mkTs 30, 4⟩ [⟨mkTs 20, 3⟩, ⟨mkTs 10, 2⟩, ⟨mkTs 0, 1⟩])
      (by simp [rankedData, rankedAux, series4])).1)
    3 ((mkTs 30).epoch - (mkTs 20).epoch) rfl rfl

/-- Claim C10: for every sensor surviving the history filter, the
inference row is the one-step shift of the observed series —
`prev_value_1` is the latest observed value, `prev_value_2`/`3` are the
latest ranked row's `prev_value_1`/`2` (the second- and third-latest
values), the timestamp (hence the calendar features) is the latest
reading's, and the inference frame carries no `value` column. -/
theorem C10_shifted_inference (sid : String) (rs : List Reading)
    (r0 r1 r2 r3 : Reading) (rest : List Reading)
    (hrev : rs.reverse = r0 :: r1 :: r2 :: r3 :: rest) :
    sensor_prediction_row sid rs
      = some { sensor_id := sid, ts := r0.ts,
               prev_value_1 := r0.value, prev_value_2 := r1.value,
               prev_value_3 := r2.value,
               rate_of_change_1 := rateCase r0.value (some r1.value)
                 (some (r0.ts.epoch - r1.ts.epoch)),
               rate_of_change_2 := rateCase r0.value (some r2.value)
                 (some (r0.ts.epoch - r2.ts.epoch)) }
    ∧ (∀ pd : List PredRow, (inferenceDF pd).hasValue = false)
    ∧ "value" ∉ requiredFeatures false SENSORS_TO_PREDICT := by
  refine ⟨?_, fun pd => rfl, by decide⟩
  rw [sensor_prediction_row_long sid r0 r1 r2 r3 rest rs hrev]
  rfl

theorem C10_shifted_inference_witness :
    sensor_prediction_row "flow-1" series4
      = some { sensor_id := "flow-1", ts := mkTs 30,
               prev_value_1 := 4, prev_value_2 := 3, prev_value_3 := 2,
               rate_of_change_1 := rateCase 4 (some 3) (some ((mkTs 30).epoch - (mkTs 20).epoch)),
               rate_of_change_2 := rateCase 4 (some 2) (some ((mkTs 30).epoch - (mkTs 10).epoch)) } :=
  (C10_shifted_inference "flow-1" series4 ⟨mkTs 30, 4⟩ ⟨mkTs 20, 3⟩ ⟨mkTs 10, 2⟩
    ⟨mkTs 0, 1⟩ [] (by decide)).1

/-- Claim C2: a sensor with fewer than three prior values in the
lookback window is dropped from the cycle (no prediction row exists for
it, so it is never encoded and its lag columns are never filled), while
sensors with enough history still get a prediction row, and on an
otherwise clean cycle every fetched row — and only those — is
published. -/
theorem C2_insufficient_history (sensors : List String) (db : String → List Reading)
    (s u : String) (_hs : s ∈ sensors) (hshort : (db s).length ≤ 3)
    (hu : u ∈ sensors) (hlong : 4 ≤ (db u).length) :
    ∃ pd, fetch_latest_data_for_prediction sensors db = some pd
      ∧ (∀ p ∈ pd, p.sensor_id ≠ s)
      ∧ (∃ p ∈ pd, p.sensor_id = u)
      ∧ (∀ (interval : ℚ) (st : LoopState) (rc : ℕ → Bool) (elapsed : ℚ) (now : String),
          ((prediction_loop_step interval st
              ⟨some (inferenceDF pd), true, rc, elapsed, now⟩).2.attempts).map (fun a => a.topic)
            = pd.map (fun p => topicOf p.sensor_id)) := by
  obtain ⟨r0, r1, r2, r3, rest, hrev⟩ := exists_rev4 (db u) hlong
  have hurow := sensor_prediction_row_long u r0 r1 r2 r3 rest (db u) hrev
  have hmem : predictionRowOf (mkRankedRow u r0 (r1 :: r2 :: r3 :: rest))
      ∈ sensors.filterMap (fun sid => sensor_prediction_row sid (db sid)) :=
    List.mem_filterMap.mpr ⟨u, hu, hurow⟩
  have hne : sensors.filterMap (fun sid => sensor_prediction_row sid (db sid)) ≠ [] :=
    List.ne_nil_of_mem hmem
  refine ⟨sensors.filterMap (fun sid => sensor_prediction_row sid (db sid)), ?_, ?_, ?_, ?_⟩
  · unfold fetch_latest_data_for_prediction
    rw [if_neg (by simp [List.isEmpty_iff, hne])]
  · intro p hp heq
    rcases List.mem_filterMap.mp hp with ⟨sid, _, hrow⟩
    have hpsid : p.sensor_id = sid := sensor_prediction_row_sid hrow
    rw [hpsid] at heq
    rw [heq] at hrow
    rw [sensor_prediction_row_short hshort] at hrow
    cases hrow
  · exact ⟨predictionRowOf (mkRankedRow u r0 (r1 :: r2 :: r3 :: rest)), hmem, rfl⟩
  · intro interval st rc elapsed now
    rw [prediction_loop_step_ok interval st _
      (inferenceDF (sensors.filterMap (fun sid => sensor_prediction_row sid (db sid))))
      rfl rfl (by exact fun h => hne (List.map_eq_nil_iff.mp h)) rfl]
    simp only [publishBatch, publishBatchFrom_topics]
    simp [cycleResults, inferenceDF, toInRow, List.map_map]

def dbW (sid : String) : List Reading :=
  if sid = "pressure-1" ∨ sid = "temp-1" ∨ sid = "flow-1" then series4
  else [⟨mkTs 0, 1⟩, ⟨mkTs 10, 2⟩]

theorem C2_insufficient_history_witness :
    ∃ pd, fetch_latest_data_for_prediction
        ["pressure-1", "temp-1", "flow-1", "pressure-2", "flow-2"] dbW = some pd
      ∧ (∀ p ∈ pd, p.sensor_id ≠ "pressure-2")
      ∧ (∃ p ∈ pd, p.sensor_id = "pressure-1")
      ∧ (∀ (interval : ℚ) (st : LoopState) (rc : ℕ → Bool) (elapsed : ℚ) (now : String),
          ((prediction_loop_step interval st
              ⟨some (inferenceDF pd), true, rc, elapsed, now⟩).2.attempts).map (fun a => a.topic)
            = pd.map (fun p => topicOf p.sensor_id)) :=
  C2_insufficient_history ["pressure-1", "temp-1", "flow-1", "pressure-2", "flow-2"] dbW
    "pressure-2" "pressure-1" (by decide) (by decide) (by decide) (by decide)

def envPubFail : CycleEnv := ⟨some dfTrain1, true, fun _ => false, 10, "2025-03-14T09:27:13Z"⟩

/-- Claim C6 counterexample: a publish failure (non-success return
code) is an error surfaced during PUBLISH and is logged inside the
cycle, yet the cycle does not sleep the full 30s configured interval as
backoff — the publish block's error handling sits before the sleep
computation of lines 449-452, so the cycle sleeps the drift-corrected
`max(0, 30 - 10) = 20`. -/
theorem C6_counterexample :
    (prediction_loop_step 30 stZero envPubFail).2.errorLogged = true
    ∧ (prediction_loop_step 30 stZero envPubFail).2.sleep = 20
    ∧ ((20 : ℚ) ≠ 30) := by
  rw [prediction_loop_step_ok 30 stZero envPubFail dfTrain1 rfl rfl (by decide) rfl]
  refine ⟨rfl, ?_, by norm_num⟩
  show max 0 (30 - envPubFail.elapsed) = 20
  have h10 : (30 : ℚ) - envPubFail.elapsed = 20 := by norm_num [envPubFail]
  rw [h10, max_eq_right (by norm_num)]

/-- Claim C6 (amended): every error surfaced during FETCH, ENCODE or
PREDICT is caught and logged inside the cycle and the loop proceeds to
IDLE sleeping the full configured interval as backoff; a PUBLISH-stage
error is caught and logged inside the cycle but the cycle then sleeps
the normal drift-corrected `max(0, interval - elapsed)`; in all cases
the iteration never lets an exception escape and never mutates the
shared model handle, and startup-time model-acquisition failure is
fatal (the prediction loop is never entered). -/
theorem C6_amended :
    (∀ (interval : ℚ) (st : LoopState) (env : CycleEnv),
      (prediction_loop_step interval st env).1 = st
      ∧ (prediction_loop_step interval st env).2.escapes = false)
    ∧ (∀ (interval : ℚ) (st : LoopState) (env : CycleEnv),
        env.fetched = none →
        (prediction_loop_step interval st env).2
          = { attempts := [], sleep := interval, errorLogged := true, escapes := false })
    ∧ (∀ (interval : ℚ) (st : LoopState) (env : CycleEnv) (df : DF),
        env.fetched = some df → process_data df = none →
        (prediction_loop_step interval st env).2
          = { attempts := [], sleep := interval, errorLogged := true, escapes := false })
    ∧ (∀ (interval : ℚ) (st : LoopState) (env : CycleEnv) (df : DF)
        (matrix : List (List (String × ℚ))),
        env.fetched = some df → process_data df = some matrix → env.predictOk = false →
        (prediction_loop_step interval st env).2
          = { attempts := [], sleep := interval, errorLogged := true, escapes := false })
    ∧ (∀ (interval : ℚ) (st : LoopState) (env : CycleEnv) (df : DF),
        env.fetched = some df → df.hasSensorId = true → df.rows ≠ [] →
        env.predictOk = true →
        (prediction_loop_step interval st env).2.sleep = max 0 (interval - env.elapsed))
    ∧ (∀ mqttOk h2oOk : Bool,
        main_startup mqttOk h2oOk false = StartupOutcome.exitBeforeLoop) :=
  ⟨fun i st env => ⟨prediction_loop_step_fst i st env, prediction_loop_step_escapes i st env⟩,
   fun i st env h => prediction_loop_step_err_fetch i st env h,
   fun i st env df hf hpd => prediction_loop_step_err_encode i st env df hf hpd,
   fun i st env df m hf hpd hp => prediction_loop_step_err_predict i st env df m hf hpd hp,
   fun i st env df hf hs hne hp => by
     rw [prediction_loop_step_ok i st env df hf hs hne hp],
   fun mq h2 => by cases mq <;> cases h2 <;> rfl⟩

def envFetchFail : CycleEnv := ⟨none, true, fun _ => true, 7, "t"⟩

theorem C6_amended_witness :
    (prediction_loop_step 30 stZero envFetchFail).1 = stZero
    ∧ (prediction_loop_step 30 stZero envFetchFail).2
        = { attempts := [], sleep := 30, errorLogged := true, escapes := false } :=
  ⟨(C6_amended.1 30 stZero envFetchFail).1, C6_amended.2.1 30 stZero envFetchFail rfl⟩

/-- Claim C8: within one batch, the publish loop attempts every
(sensor, prediction) pair in order; the attempt at each index carries
that sensor's topic, payload and its own return code, independently of
the return codes of the other publishes — a failure for one sensor
never removes the attempts for the remaining sensors. -/
theorem C8_publish_isolation (now : String) (rc : ℕ → Bool)
    (results : List (String × ℚ)) (j : ℕ) (sid : String) (v : ℚ)
    (h : results[j]? = some (sid, v)) :
    (publishBatch now rc results).length = results.length
    ∧ (publishBatch now rc results)[j]?
        = some { topic := topicOf sid, payload := envelopeJson now sid v, ok := rc j } :=
  ⟨publishBatchFrom_length now rc results 0,
   publishBatch_getElem now rc results j sid v h⟩

theorem C8_publish_isolation_witness :
    (publishBatch "t" (fun i => ! (i == 0)) [("pressure-1", (1:ℚ)), ("temp-1", 2)]).length = 2
    ∧ (publishBatch "t" (fun i => ! (i == 0)) [("pressure-1", (1:ℚ)), ("temp-1", 2)])[1]?
        = some { topic := topicOf "temp-1", payload := envelopeJson "t" "temp-1" 2,
                 ok := true } :=
  C8_publish_isolation "t" (fun i => ! (i == 0)) [("pressure-1", 1), ("temp-1", 2)]
    1 "temp-1" 2 rfl

/-- Claim C9: each published envelope carries exactly the fields
timestamp, sensor_id, value and type = "prediction", on topic
`<prediction-topic-prefix>/<sensor_id>`; deserializing it returns the
same sensor_id and the same predicted value that the model produced for
that sensor's encoded row in that cycle — the pairing is positional and
preserved end to end. -/
theorem C9_envelope_roundtrip :
    (∀ (now sid : String) (v : ℚ),
      jsonKeys (envelopeJson now sid v) = ["timestamp", "sensor_id", "value", "type"]
      ∧ jsonField (envelopeJson now sid v) "timestamp" = some (Json.str now)
      ∧ jsonField (envelopeJson now sid v) "sensor_id" = some (Json.str sid)
      ∧ jsonField (envelopeJson now sid v) "value" = some (Json.num v)
      ∧ jsonField (envelopeJson now sid v) "type" = some (Json.str "prediction"))
    ∧ (∀ (interval : ℚ) (st : LoopState) (env : CycleEnv) (pd : List PredRow)
        (j : ℕ) (p : PredRow),
        env.fetched = some (inferenceDF pd) → env.predictOk = true →
        pd[j]? = some p →
        (prediction_loop_step interval st env).2.attempts[j]?
          = some { topic := topicOf p.sensor_id,
                   payload := envelopeJson env.now p.sensor_id
                     (st.trained_model
                       (encodeRow false true SENSORS_TO_PREDICT (toInRow p))),
                   ok := env.rc j }) := by
  constructor
  · intro now sid v
    exact ⟨rfl, rfl, rfl, rfl, rfl⟩
  · intro interval st env pd j p hf hp hj
    have hne : pd ≠ [] := by
      intro hnil
      rw [hnil] at hj
      simp at hj
    rw [prediction_loop_step_ok interval st env (inferenceDF pd) hf rfl
        (fun h => hne (List.map_eq_nil_iff.mp h)) hp]
    have hres : (cycleResults st (inferenceDF pd))[j]?
        = some (p.sensor_id,
            st.trained_model (encodeRow false true SENSORS_TO_PREDICT (toInRow p))) := by
      unfold cycleResults inferenceDF
      simp only [List.map_map, List.getElem?_map, hj]
      rfl
    exact publishBatch_getElem env.now env.rc _ j _ _ hres

def p1 : PredRow := ⟨"pressure-1", mkTs 30, 4, 3, 2, 0, 0⟩

def envC9 : CycleEnv := ⟨some (inferenceDF [p1]), true, fun _ => true, 5, "now-ts"⟩

theorem C9_envelope_roundtrip_witness :
    jsonField (envelopeJson "now-ts" "pressure-1" 4) "sensor_id"
      = some (Json.str "pressure-1")
    ∧ (prediction_loop_step 30 stZero envC9).2.attempts[0]?
        = some { topic := topicOf "pressure-1",
                 payload := envelopeJson "now-ts" "pressure-1"
                   (stZero.trained_model
                     (encodeRow false true SENSORS_TO_PREDICT (toInRow p1))),
                 ok := true } :=
  ⟨(C9_envelope_roundtrip.1 "now-ts" "pressure-1" 4).2.2.1,
   C9_envelope_roundtrip.2 30 stZero envC9 [p1] 0 p1 rfl rfl rfl⟩

end AutoML
